import Mathlib

/-!
Verification development for the JSON analyzer of the devtool repository
(src/views/json_formatter.py).  The analyzer (class JsonAnalyzer) is a
cascading parse/repair pipeline over strings, producing a list of JsonLine
records.  We embed the analyzer shallowly: Python strings are Lean strings
(lists of Unicode characters), the three external parsing libraries
(json.loads, pyjson5.loads, json_repair.repair_json) are parameters of the
embedding, and a concrete executable model of json.loads / json.dumps is
provided for evaluating the pipeline on concrete inputs.  Exceptions are
modelled with Except / Option; the Python function returning None (falling
off the end) and an exception escaping to the caller are distinguished in
the result type.
-/

/-! ## Python string primitives -/

/-- Characters stripped by Python's str.strip() / str.lstrip() with no
argument (the Unicode whitespace set used by CPython for str). -/
def pyIsSpace (c : Char) : Bool :=
  (9 ≤ c.toNat ∧ c.toNat ≤ 13) ∨ (0x1c ≤ c.toNat ∧ c.toNat ≤ 0x1f) ∨
  c.toNat = 0x20 ∨ c.toNat = 0x85 ∨ c.toNat = 0xa0 ∨ c.toNat = 0x1680 ∨
  (0x2000 ≤ c.toNat ∧ c.toNat ≤ 0x200a) ∨
  c.toNat = 0x2028 ∨ c.toNat = 0x2029 ∨ c.toNat = 0x202f ∨
  c.toNat = 0x205f ∨ c.toNat = 0x3000

/-- Python str.lstrip(). -/
def pyLStrip (s : String) : String :=
  ⟨s.data.dropWhile pyIsSpace⟩

/-- Python str.rstrip(). -/
def pyRStrip (s : String) : String :=
  ⟨((s.data.reverse.dropWhile pyIsSpace)).reverse⟩

/-- Python str.strip(). -/
def pyStrip (s : String) : String :=
  pyRStrip (pyLStrip s)

/-- Line-boundary characters of Python's str.splitlines (other than the
two-character boundary CRLF, handled separately). -/
def pyIsLineBreak (c : Char) : Bool :=
  (10 ≤ c.toNat ∧ c.toNat ≤ 13) ∨ (0x1c ≤ c.toNat ∧ c.toNat ≤ 0x1e) ∨
  c.toNat = 0x85 ∨ c.toNat = 0x2028 ∨ c.toNat = 0x2029

/-- Worker for pySplitlines: acc holds the current (reversed) line. -/
def pySplitlinesAux : List Char → List Char → List String
  | [], acc => if acc.isEmpty then [] else [⟨acc.reverse⟩]
  | ('\r') :: ('\n') :: rest, acc => (⟨acc.reverse⟩ : String) :: pySplitlinesAux rest []
  | c :: rest, acc =>
    if pyIsLineBreak c then (⟨acc.reverse⟩ : String) :: pySplitlinesAux rest []
    else pySplitlinesAux rest (c :: acc)

/-- Python str.splitlines() (keepends=False). -/
def pySplitlines (s : String) : List String :=
  pySplitlinesAux s.data []

/-- Python s.count("\n"). -/
def countNewlines (s : String) : Nat :=
  s.data.count ('\n')

/-- Python s[:n] (character slice; n past the end is clamped). -/
def pyTake (s : String) (n : Nat) : String :=
  ⟨s.data.take n⟩

/-- Python s[a : a + b] (clamped character slice). -/
def pySlice (s : String) (a b : Nat) : String :=
  ⟨(s.data.drop a).take b⟩

/-- Python s.replace(".", "", 1): remove the first '.' if present. -/
def removeFirstDot : List Char → List Char
  | [] => []
  | c :: rest => if c = ('.') then rest else c :: removeFirstDot rest

/-- Model of Python str.isdigit(): non-empty and all characters decimal
digits.  (CPython also accepts other Unicode digit characters; no input
evaluated in this development contains any.) -/
def pyIsDigitStr (cs : List Char) : Bool :=
  (!cs.isEmpty) && cs.all (fun c => ('0') ≤ c ∧ c ≤ ('9'))

/-- ASCII lowercasing of one character, as used by str.lower() on the
inputs compared against the ASCII literals true/false/null. -/
def asciiLower (c : Char) : Char :=
  if ('A') ≤ c ∧ c ≤ ('Z') then Char.ofNat (c.toNat + 32) else c

/-- Model of Python str.lower() (ASCII fragment; the analyzer only compares
the result against the ASCII strings true/false/null). -/
def pyLower (s : String) : String :=
  ⟨s.data.map asciiLower⟩

/-! ## JSON value trees

Python json.loads produces dicts/lists/strs/ints/floats/bools/None.  The
embedding models numbers as integers: float-valued JSON numbers carry IEEE
semantics that are outside this embedding, and no claim is evaluated on an
input containing one. -/

inductive JValue where
  | null : JValue
  | bool : Bool → JValue
  | int : Int → JValue
  | str : String → JValue
  | arr : List JValue → JValue
  | obj : List (String × JValue) → JValue
deriving Repr

/-! ## json.dumps model -/

/-- The keyword arguments the analyzer hands to json.dumps, after Python's
defaulting of separators: with indent set the item separator defaults to a
bare comma, without indent it defaults to comma-space; the key separator
defaults to colon-space. -/
structure DumpArgs where
  indent : Option Nat
  itemSep : String
  keySep : String
  ensureAscii : Bool
deriving Repr, DecidableEq

/-- Lowercase hex digit. -/
def hexDigit (n : Nat) : Char :=
  if n < 10 then Char.ofNat (('0').toNat + n) else Char.ofNat (('a').toNat + (n - 10))

/-- Four-digit lowercase \uXXXX escape, as emitted by json.dumps. -/
def uEscape (n : Nat) : List Char :=
  ('\\') :: ('u') :: [hexDigit (n / 4096 % 16), hexDigit (n / 256 % 16),
    hexDigit (n / 16 % 16), hexDigit (n % 16)]

/-- Escape of one character inside a JSON string literal, per CPython's
json encoder: quote and backslash always escaped; control characters below
0x20 use the short escapes or \u00xx; with ensure_ascii, every character
outside 0x20..0x7e is \u-escaped (astral characters as surrogate pairs). -/
def escapeChar (ensureAscii : Bool) (c : Char) : List Char :=
  if c = ('"') then [('\\'), ('"')]
  else if c = ('\\') then [('\\'), ('\\')]
  else if c.toNat < 0x20 then
    if c = ('\x08') then [('\\'), ('b')]
    else if c = ('\t') then [('\\'), ('t')]
    else if c = ('\n') then [('\\'), ('n')]
    else if c = ('\x0c') then [('\\'), ('f')]
    else if c = ('\r') then [('\\'), ('r')]
    else uEscape c.toNat
  else if ensureAscii ∧ c.toNat > 0x7e then
    if c.toNat ≤ 0xffff then uEscape c.toNat
    else uEscape (0xd800 + (c.toNat - 0x10000) / 1024) ++
         uEscape (0xdc00 + (c.toNat - 0x10000) % 1024)
  else [c]

/-- JSON string literal for s, as json.dumps emits it. -/
def dumpString (ensureAscii : Bool) (s : String) : String :=
  ⟨('"') :: (s.data.flatMap (escapeChar ensureAscii)) ++ [('"')]⟩

/-- Newline plus indentation for nesting depth d (empty in compact mode),
mirroring the newline_indent of CPython's json encoder. -/
def nlIndent (args : DumpArgs) (d : Nat) : String :=
  match args.indent with
  | none => ("")
  | some w => ⟨('\n') :: List.replicate (w * d) (' ')⟩

/-- Model of json.dumps on a value at nesting depth d, matching CPython's
output on the supported value fragment (default sort_keys=False).  The
first argument is recursion fuel: it only bounds the nesting depth the
model can traverse, and pyDumps below supplies far more of it than
CPython's own recursion limit allows json.dumps to use. -/
def dumpValueF (args : DumpArgs) : Nat → Nat → JValue → String
  | 0, _, _ => ("")
  | _ + 1, _, .null => ("null")
  | _ + 1, _, .bool true => ("true")
  | _ + 1, _, .bool false => ("false")
  | _ + 1, _, .int n => toString n
  | _ + 1, _, .str s => dumpString args.ensureAscii s
  | fuel + 1, d, .arr xs =>
    if xs.isEmpty then ("[]")
    else ("[") ++ nlIndent args (d + 1) ++
      String.intercalate (args.itemSep ++ nlIndent args (d + 1))
        (xs.map (dumpValueF args fuel (d + 1))) ++
      nlIndent args d ++ ("]")
  | fuel + 1, d, .obj kvs =>
    if kvs.isEmpty then ("\x7b\x7d")
    else ("\x7b") ++ nlIndent args (d + 1) ++
      String.intercalate (args.itemSep ++ nlIndent args (d + 1))
        (kvs.map (fun kv =>
          dumpString args.ensureAscii kv.1 ++ args.keySep ++
            dumpValueF args fuel (d + 1) kv.2)) ++
      nlIndent args d ++ ("\x7d")

/-- Top-level json.dumps model.  The fuel bounds nesting depth at 100000,
far beyond CPython's default recursion limit, under which json.dumps
itself raises RecursionError. -/
def pyDumps (args : DumpArgs) (v : JValue) : String :=
  dumpValueF args 100000 0 v

/-! ## Analyzer data model (src/views/json_formatter.py) -/

/-- One rendered row (dataclass JsonLine). -/
structure JsonLine where
  text : String
  level : Int
  has_error : Bool
  error_message : Option String
deriving Repr, DecidableEq

/-- dataclass JsonAnalyzerConfig.  show_line_numbers is carried but never
read by the analyzer. -/
structure JsonAnalyzerConfig where
  indent : Option Nat := some 2
  ensure_ascii : Bool := false
  max_error_context : Nat := 20
  show_line_numbers : Bool := true
  separators : Option (String × String) := none
deriving Repr, DecidableEq

/-- A json.JSONDecodeError: its pos attribute and its str() rendering. -/
structure JsonError where
  pos : Nat
  msg : String
deriving Repr, DecidableEq

/-- The three external parsing libraries the analyzer calls, as parameters
of the embedding.  strict models json.loads (raising only
json.JSONDecodeError on this input shape); lenient models pyjson5.loads
(error value = the message of whatever exception it raised); repair models
json_repair.repair_json (none = the call raised, some r = it returned the
string r, which Python then tests for truthiness). -/
structure Parsers where
  strict : String → Except JsonError JValue
  lenient : String → Except String JValue
  repair : String → Option String

/-- The dump_kwargs computed at the top of analyze_json: indent and
ensure_ascii from the config, and when config.separators is set (compact
mode) indent is forced to None and the separators are passed through;
otherwise json.dumps defaults the separators from indent. -/
def dumpArgsOf (cfg : JsonAnalyzerConfig) : DumpArgs :=
  match cfg.separators with
  | some (isep, ksep) => ⟨none, isep, ksep, cfg.ensure_ascii⟩
  | none =>
    match cfg.indent with
    | some w => ⟨some w, (","), (": "), cfg.ensure_ascii⟩
    | none => ⟨none, (", "), (": "), cfg.ensure_ascii⟩

/-- The dump kwargs used inside _handle_error, which passes only indent and
ensure_ascii to json.dumps (never separators), so json.dumps applies its
own separator defaults. -/
def dumpArgsNoSep (cfg : JsonAnalyzerConfig) : DumpArgs :=
  match cfg.indent with
  | some w => ⟨some w, (","), (": "), cfg.ensure_ascii⟩
  | none => ⟨none, (", "), (": "), cfg.ensure_ascii⟩

/-! ## _create_success_lines -/

/-- The closing-bracket tie-break test of _create_success_lines:
stripped.startswith(("\x7d", "]")) on the left-stripped line (for the
one-character patterns of the source, startswith holds exactly when the
first character matches). -/
def closerTest (line : String) : Bool :=
  (pyLStrip line).data.head? = some ('\x7d') ∨ (pyLStrip line).data.head? = some (']')

/-- The opening-bracket test of _create_success_lines:
stripped.endswith(("\x7b", "[")) on the left-stripped line. -/
def openerTest (line : String) : Bool :=
  (pyLStrip line).data.getLast? = some ('\x7b') ∨ (pyLStrip line).data.getLast? = some ('[')

/-- The level recorded for a line: decremented before recording when the
line starts (left-stripped) with a closing bracket. -/
def walkRec (line : String) (lvl : Int) : Int :=
  if closerTest line then lvl - 1 else lvl

/-- The counter passed on to the next line: incremented after recording
when the line ends (left-stripped) with an opening bracket. -/
def walkNext (line : String) (lvl : Int) : Int :=
  if openerTest line then walkRec line lvl + 1 else walkRec line lvl

/-- Net change a line contributes to the running level counter. -/
def lineDelta (line : String) : Int :=
  (if openerTest line then 1 else 0) - (if closerTest line then 1 else 0)

/-- The level-tracking walk of _create_success_lines over the split
lines. -/
def successWalk : List String → Int → List JsonLine
  | [], _ => []
  | line :: rest, level =>
    ⟨line, walkRec line level, false, none⟩ :: successWalk rest (walkNext line level)

/-- _create_success_lines.  The Python code preallocates a buffer of
formatted_json.count("\n") + 1 slots and writes one slot per element of
formatted_json.splitlines(); when splitlines produces more lines than that
(possible because splitlines also splits on characters other than "\n"),
the write past the end raises IndexError, modelled as .error.  Otherwise
the walk assigns levels with the bracket rules of successWalk. -/
def createSuccessLines (formatted : String) : Except Unit (List JsonLine) :=
  if (pySplitlines formatted).length > countNewlines formatted + 1 then .error ()
  else .ok (successWalk (pySplitlines formatted) 0)

/-! ## Shape pre-check -/

/-- The is_potential_json test of analyze_json: first/last non-whitespace
character bracket or quote pairing, the lowercased literals, or the
one-dot-stripped digit test.  Only meaningful for non-blank text (the
guards have already returned on blank input when it is evaluated). -/
def isPotentialJson (text : String) : Bool :=
  (((pyLStrip text).data.headD (' ') = ('\x7b') ∨
      (pyLStrip text).data.headD (' ') = ('[')) ∧
    ((pyRStrip text).data.getLastD (' ') = ('\x7d') ∨
      (pyRStrip text).data.getLastD (' ') = (']'))) ∨
  ((pyLStrip text).data.headD (' ') = ('"') ∧
    (pyRStrip text).data.getLastD (' ') = ('"')) ∨
  (pyLower (pyStrip text) = ("true") ∨ pyLower (pyStrip text) = ("false") ∨
    pyLower (pyStrip text) = ("null")) ∨
  pyIsDigitStr (removeFirstDot (pyStrip text).data)

/-! ## _find_valid_json_before_position -/

/-- The positions of every comma character in the text, in increasing
order (Python: pos for pos, char in enumerate(text) if char == ","). -/
def commaPositions (s : String) : List Nat :=
  (List.range s.data.length).filter (fun i => s.data.getD i (' ') = (','))

/-- The backward loop of _find_valid_json_before_position: positions are
visited in the order given (the caller passes the comma positions
reversed); blank candidates are skipped; a candidate whose repair raises
or returns a falsy string is skipped; the first candidate whose repair
returns a non-empty string ends the loop with that repaired string. -/
def findLoop (repair : String → Option String) (text : String) : List Nat → Option String
  | [] => none
  | pos :: rest =>
    let tryText := pyTake text pos
    if pyStrip tryText = ("") then findLoop repair text rest
    else
      match repair tryText with
      | some r => if r = ("") then findLoop repair text rest else some r
      | none => findLoop repair text rest

/-- _find_valid_json_before_position: blank text yields None; with no
comma present the whole text is repaired as a single candidate (the repair
result is returned as-is, even when falsy, and None when the call raises);
otherwise the comma positions are walked from the last backward. -/
def findValidJsonBeforePosition (repair : String → Option String) (text : String) :
    Option String :=
  if pyStrip text = ("") then none
  else
    let commas := commaPositions text
    if commas.isEmpty then repair text
    else findLoop repair text commas.reverse

/-! ## _handle_error -/

/-- The error line appended by _handle_error: its text is the raw slice of
max_error_context characters starting at the error offset, and its message
interpolates the offset and str(error). -/
def errorContextLine (cfg : JsonAnalyzerConfig) (text : String) (e : JsonError) : JsonLine :=
  ⟨pySlice text e.pos cfg.max_error_context, 0, true,
    some (("解析错误 (位置 ") ++ toString e.pos ++ ("): ") ++ e.msg)⟩

/-- The lines prepended by _handle_error when a prefix is recovered: the
recovered string must be truthy, must strict-parse, and its re-serialized
form must survive _create_success_lines; any failure in that chain is
swallowed by the bare except (or by the falsiness test) and contributes no
lines. -/
def recoveredLines (P : Parsers) (cfg : JsonAnalyzerConfig) (text : String)
    (e : JsonError) : List JsonLine :=
  match findValidJsonBeforePosition P.repair (pyTake text e.pos) with
  | some vj =>
    if vj = ("") then []
    else
      match P.strict vj with
      | .ok parsed =>
        match createSuccessLines (pyDumps (dumpArgsNoSep cfg) parsed) with
        | .ok ls => ls
        | .error _ => []
      | .error _ => []
  | none => []

/-- _handle_error: format whatever valid prefix could be recovered from
the text before the error position, then append the error-context line.
(The outer try/except of the Python function cannot fire on this input
shape: every operation outside the inner try blocks is total.) -/
def handleError (P : Parsers) (cfg : JsonAnalyzerConfig) (text : String)
    (e : JsonError) : List JsonLine :=
  recoveredLines P cfg text e ++ [errorContextLine cfg text e]

/-! ## analyze_json -/

/-- The observable outcome of a call to analyze_json: a returned list, the
implicit None returned when control falls off the end of the function
(repair_json returned a falsy string without raising), or an exception
escaping to the caller (re-raised by the outermost except handler). -/
inductive AnalyzeResult where
  | lines : List JsonLine → AnalyzeResult
  | returnedNone : AnalyzeResult
  | raised : AnalyzeResult
deriving Repr, DecidableEq

/-- Stages 2-4 of the cascade: pyjson5, then json_repair, then the error
handling that prefers the strict parser's original error. -/
def lenientStages (P : Parsers) (cfg : JsonAnalyzerConfig) (text : String)
    (original : Option JsonError) : AnalyzeResult :=
  let args := dumpArgsOf cfg
  let stageFour : AnalyzeResult :=
    match original with
    | some e => .lines (handleError P cfg text e)
    | none => .lines [⟨text, 0, true, some ("无法解析的JSON格式")⟩]
  let repairStage : AnalyzeResult :=
    match P.repair text with
    | some r =>
      if r = ("") then .returnedNone
      else
        match P.strict r with
        | .ok parsed =>
          match createSuccessLines (pyDumps args parsed) with
          | .ok ls => .lines ls
          | .error _ => stageFour
        | .error _ => stageFour
    | none => stageFour
  match P.lenient text with
  | .ok parsed =>
    match createSuccessLines (pyDumps args parsed) with
    | .ok ls => .lines ls
    | .error _ => repairStage
  | .error _ => repairStage

/-- analyze_json.  Guard clauses for blank and oversized input; shape
pre-check; strict parse attempted only when the pre-check passes (its
JSONDecodeError is remembered as the original error; an exception raised
after a successful strict parse, e.g. the formatter's IndexError, is not a
JSONDecodeError and escapes to the caller); then the lenient stages. -/
def analyzeJson (P : Parsers) (cfg : JsonAnalyzerConfig) (text : String) : AnalyzeResult :=
  if pyStrip text = ("") then
    .lines [⟨(""), 0, true, some ("空输入")⟩]
  else if text.length > 10 * 1024 * 1024 then
    .lines [⟨(""), 0, true, some ("输入数据过大")⟩]
  else
    let args := dumpArgsOf cfg
    if isPotentialJson text then
      match P.strict text with
      | .ok parsed =>
        match createSuccessLines (pyDumps args parsed) with
        | .ok ls => .lines ls
        | .error _ => .raised
      | .error e => lenientStages P cfg text (some e)
    else
      lenientStages P cfg text none

/-! ## Concrete model of json.loads

A recursive-descent parser for strict JSON, mirroring CPython's json
scanner on the fragment used by this development: objects, arrays, string
literals with the standard escapes (including surrogate-pair \uXXXX
escapes), the literals, and integer numbers.  Error positions and
messages approximate CPython's (no claim observes them: the generic
theorems take the parsers as parameters, and every concrete evaluation of
this model goes through a success path).  Two deliberate model
boundaries, neither exercised by any evaluated input: number literals
with a fraction or exponent part parse to Python floats whose IEEE
semantics are outside this embedding, and lone-surrogate \uXXXX escapes
produce Python strings no Lean Char can carry; both are mapped to parse
errors here.  The fuel argument makes the recursion structural; the entry
point supplies more fuel than any input can consume. -/

/-- JSON whitespace (the only characters CPython's json scanner skips). -/
def jsonWS (c : Char) : Bool :=
  c = (' ') ∨ c = ('\t') ∨ c = ('\n') ∨ c = ('\r')

/-- Skip JSON whitespace, tracking the absolute character position. -/
def skipWS : List Char → Nat → List Char × Nat
  | [], p => ([], p)
  | c :: rest, p => if jsonWS c then skipWS rest (p + 1) else (c :: rest, p)

/-- Hex digit value. -/
def hexVal (c : Char) : Option Nat :=
  if ('0') ≤ c ∧ c ≤ ('9') then some (c.toNat - ('0').toNat)
  else if ('a') ≤ c ∧ c ≤ ('f') then some (c.toNat - ('a').toNat + 10)
  else if ('A') ≤ c ∧ c ≤ ('F') then some (c.toNat - ('A').toNat + 10)
  else none

/-- Four hex digits. -/
def hex4 : List Char → Option Nat
  | a :: b :: c :: d :: _ =>
    match hexVal a, hexVal b, hexVal c, hexVal d with
    | some x, some y, some z, some w => some (((x * 16 + y) * 16 + z) * 16 + w)
    | _, _, _, _ => none
  | _ => none

/-- Body of a JSON string literal (opening quote already consumed): the
accumulated characters, then the input and position after the closing
quote. -/
def parseStringBody (fuel : Nat) (cs : List Char) (p : Nat) (acc : List Char) :
    Except JsonError (List Char × List Char × Nat) :=
  match fuel with
  | 0 => .error ⟨p, ("model fuel exhausted")⟩
  | fuel + 1 =>
    match cs with
    | [] => .error ⟨p, ("Unterminated string")⟩
    | ('"') :: rest => .ok (acc.reverse, rest, p + 1)
    | ('\\') :: esc =>
      match esc with
      | ('u') :: rest =>
        match hex4 rest with
        | none => .error ⟨p, ("Invalid \\uXXXX escape")⟩
        | some n =>
          if 0xd800 ≤ n ∧ n ≤ 0xdbff then
            match rest.drop 4 with
            | ('\\') :: ('u') :: rest2 =>
              match hex4 rest2 with
              | some m =>
                if 0xdc00 ≤ m ∧ m ≤ 0xdfff then
                  parseStringBody fuel (rest2.drop 4) (p + 12)
                    (Char.ofNat (0x10000 + (n - 0xd800) * 1024 + (m - 0xdc00)) :: acc)
                else .error ⟨p, ("lone surrogate outside model")⟩
              | none => .error ⟨p, ("lone surrogate outside model")⟩
            | _ => .error ⟨p, ("lone surrogate outside model")⟩
          else if 0xdc00 ≤ n ∧ n ≤ 0xdfff then
            .error ⟨p, ("lone surrogate outside model")⟩
          else parseStringBody fuel (rest.drop 4) (p + 6) (Char.ofNat n :: acc)
      | ('"') :: rest => parseStringBody fuel rest (p + 2) (('"') :: acc)
      | ('\\') :: rest => parseStringBody fuel rest (p + 2) (('\\') :: acc)
      | ('/') :: rest => parseStringBody fuel rest (p + 2) (('/') :: acc)
      | ('b') :: rest => parseStringBody fuel rest (p + 2) (('\x08') :: acc)
      | ('f') :: rest => parseStringBody fuel rest (p + 2) (('\x0c') :: acc)
      | ('n') :: rest => parseStringBody fuel rest (p + 2) (('\n') :: acc)
      | ('r') :: rest => parseStringBody fuel rest (p + 2) (('\r') :: acc)
      | ('t') :: rest => parseStringBody fuel rest (p + 2) (('\t') :: acc)
      | _ => .error ⟨p + 1, ("Invalid \\escape")⟩
    | c :: rest =>
      if c.toNat < 0x20 then .error ⟨p, ("Invalid control character")⟩
      else parseStringBody fuel rest (p + 1) (c :: acc)

/-- Greedy run of decimal digits with its value (most significant first
into the accumulator). -/
def parseDigits : List Char → Nat → Nat → Nat × List Char × Nat
  | c :: rest, acc, p =>
    if ('0') ≤ c ∧ c ≤ ('9') then
      parseDigits rest (acc * 10 + (c.toNat - ('0').toNat)) (p + 1)
    else (acc, c :: rest, p)
  | [], acc, p => (acc, [], p)

/-- Insertion into the pairs of an object as CPython's dict does it: a
repeated key keeps its first position and takes the latest value. -/
def objInsert (kvs : List (String × JValue)) (k : String) (v : JValue) :
    List (String × JValue) :=
  if kvs.any (fun kv => kv.1 = k) then
    kvs.map (fun kv => if kv.1 = k then (k, v) else kv)
  else kvs ++ [(k, v)]

/-- Integer literal tail: leading zero not followed by digits, or a
nonzero leading digit run; a fraction or exponent marker afterwards is a
float literal, outside the model. -/
def parseIntTail (cs : List Char) (p : Nat) : Except JsonError (Nat × List Char × Nat) :=
  match cs with
  | c :: cs2 =>
    if ('0') ≤ c ∧ c ≤ ('9') then
      -- CPython's number regex: the integer part is 0 alone or a nonzero
      -- digit followed by any digits; a second digit after a leading zero
      -- is trailing data, not part of this number.
      let (n, rest, p2) :=
        if c = ('0') then (0, cs2, p + 1) else parseDigits cs 0 p
      match rest with
      | d :: _ =>
        if d = ('.') ∨ d = ('e') ∨ d = ('E') then
          .error ⟨p, ("float literal outside model")⟩
        else .ok (n, rest, p2)
      | [] => .ok (n, rest, p2)
    else .error ⟨p, ("Expecting value")⟩
  | [] => .error ⟨p, ("Expecting value")⟩

mutual

/-- A JSON value at the head of the input (whitespace already skipped). -/
def parseValueF (fuel : Nat) (cs : List Char) (p : Nat) :
    Except JsonError (JValue × List Char × Nat) :=
  match fuel with
  | 0 => .error ⟨p, ("model fuel exhausted")⟩
  | fuel + 1 =>
    match cs with
    | ('\x7b') :: rest =>
      let (rest2, p2) := skipWS rest (p + 1)
      match rest2 with
      | ('\x7d') :: rest3 => .ok (.obj [], rest3, p2 + 1)
      | _ => parseObjF fuel rest2 p2 []
    | ('[') :: rest =>
      let (rest2, p2) := skipWS rest (p + 1)
      match rest2 with
      | (']') :: rest3 => .ok (.arr [], rest3, p2 + 1)
      | _ => parseArrF fuel rest2 p2 []
    | ('"') :: rest =>
      match parseStringBody (rest.length + 1) rest (p + 1) [] with
      | .ok (content, rest2, p2) => .ok (.str ⟨content⟩, rest2, p2)
      | .error e => .error e
    | ('t') :: ('r') :: ('u') :: ('e') :: rest => .ok (.bool true, rest, p + 4)
    | ('f') :: ('a') :: ('l') :: ('s') :: ('e') :: rest => .ok (.bool false, rest, p + 5)
    | ('n') :: ('u') :: ('l') :: ('l') :: rest => .ok (.null, rest, p + 4)
    | ('-') :: rest =>
      match parseIntTail rest (p + 1) with
      | .ok (n, rest2, p2) => .ok (.int (-(n : Int)), rest2, p2)
      | .error _ => .error ⟨p, ("Expecting value")⟩
    | c :: rest =>
      if ('0') ≤ c ∧ c ≤ ('9') then
        match parseIntTail (c :: rest) p with
        | .ok (n, rest2, p2) => .ok (.int (n : Int), rest2, p2)
        | .error e => .error e
      else .error ⟨p, ("Expecting value")⟩
    | [] => .error ⟨p, ("Expecting value")⟩

/-- Items of a non-empty array, positioned at the start of an item. -/
def parseArrF (fuel : Nat) (cs : List Char) (p : Nat) (acc : List JValue) :
    Except JsonError (JValue × List Char × Nat) :=
  match fuel with
  | 0 => .error ⟨p, ("model fuel exhausted")⟩
  | fuel + 1 =>
    match parseValueF fuel cs p with
    | .error e => .error e
    | .ok (v, rest, p2) =>
      let (rest2, p3) := skipWS rest p2
      match rest2 with
      | (']') :: rest3 => .ok (.arr (acc ++ [v]), rest3, p3 + 1)
      | (',') :: rest3 =>
        let (rest4, p4) := skipWS rest3 (p3 + 1)
        parseArrF fuel rest4 p4 (acc ++ [v])
      | _ => .error ⟨p3, ("Expecting ',' delimiter")⟩

/-- Members of a non-empty object, positioned at the start of a key. -/
def parseObjF (fuel : Nat) (cs : List Char) (p : Nat)
    (acc : List (String × JValue)) : Except JsonError (JValue × List Char × Nat) :=
  match fuel with
  | 0 => .error ⟨p, ("model fuel exhausted")⟩
  | fuel + 1 =>
    match cs with
    | ('"') :: rest =>
      match parseStringBody (rest.length + 1) rest (p + 1) [] with
      | .error e => .error e
      | .ok (key, rest2, p2) =>
        let (rest3, p3) := skipWS rest2 p2
        match rest3 with
        | (':') :: rest4 =>
          let (rest5, p5) := skipWS rest4 (p3 + 1)
          match parseValueF fuel rest5 p5 with
          | .error e => .error e
          | .ok (v, rest6, p6) =>
            let acc2 := objInsert acc ⟨key⟩ v
            let (rest7, p7) := skipWS rest6 p6
            match rest7 with
            | ('\x7d') :: rest8 => .ok (.obj acc2, rest8, p7 + 1)
            | (',') :: rest8 =>
              let (rest9, p9) := skipWS rest8 (p7 + 1)
              parseObjF fuel rest9 p9 acc2
            | _ => .error ⟨p7, ("Expecting ',' delimiter")⟩
        | _ => .error ⟨p3, ("Expecting ':' delimiter")⟩
    | _ => .error ⟨p, ("Expecting property name enclosed in double quotes")⟩

end

/-- Model of json.loads: skip leading whitespace, parse one value, skip
trailing whitespace, and reject trailing data. -/
def jsonLoads (s : String) : Except JsonError JValue :=
  let (cs, p) := skipWS s.data 0
  match parseValueF (s.data.length + 1) cs p with
  | .error e => .error e
  | .ok (v, rest, p2) =>
    let (rest2, p3) := skipWS rest p2
    if rest2.isEmpty then .ok v else .error ⟨p3, ("Extra data")⟩

/-- The concrete parser bundle used when the pipeline is run on concrete
inputs.  strict is the jsonLoads model.  lenient models pyjson5.loads on
the strict-JSON fragment only (pyjson5 accepts a superset of JSON; every
concrete input this bundle is evaluated on lies in the shared fragment,
where pyjson5 agrees with json).  repair models json_repair.repair_json
on already-valid input, where the library returns the value re-serialized
with json.dumps defaults; no concrete evaluation feeds it anything else. -/
def modelParsers : Parsers where
  strict := jsonLoads
  lenient := fun s => (jsonLoads s).mapError (fun e => e.msg)
  repair := fun s =>
    match jsonLoads s with
    | .ok v => some (pyDumps ⟨none, (", "), (": "), true⟩ v)
    | .error _ => none

/-- The default JsonAnalyzerConfig (all dataclass defaults). -/
def defaultConfig : JsonAnalyzerConfig := {}

/-- A parser bundle with every stage failing; used to instantiate theorems
that hold for arbitrary library behaviour. -/
def stubParsers : Parsers where
  strict := fun _ => .error ⟨0, ("stub")⟩
  lenient := fun _ => .error ("stub")
  repair := fun _ => none

/-! ## Helper lemmas -/

lemma dropWhile_replicate (p : Char → Bool) (n : Nat) (c : Char) :
    List.dropWhile p (List.replicate n c) =
      if p c then [] else List.replicate n c := by
  induction n with
  | zero => simp
  | succ k ih =>
    rw [List.replicate_succ, List.dropWhile_cons]
    by_cases h : p c <;> simp [h, ih]

lemma pyStrip_replicate (n : Nat) (c : Char) (h : pyIsSpace c = true) :
    pyStrip (String.mk (List.replicate n c)) = ("") := by
  simp [pyStrip, pyLStrip, pyRStrip, dropWhile_replicate, h]

lemma pyStrip_replicate_nonspace (n : Nat) (c : Char) (h : pyIsSpace c = false) :
    pyStrip (String.mk (List.replicate n c)) = String.mk (List.replicate n c) := by
  simp [pyStrip, pyLStrip, pyRStrip, List.reverse_replicate, dropWhile_replicate, h]

lemma length_mk_replicate (n : Nat) (c : Char) :
    (String.mk (List.replicate n c)).length = n := by
  simp [String.length]

/-- analyze_json on blank input, for an arbitrary parser bundle (the
blank-input guard returns before any stage runs). -/
lemma analyzeJson_blank (P : Parsers) (cfg : JsonAnalyzerConfig) (text : String)
    (h : pyStrip text = ("")) :
    analyzeJson P cfg text = .lines [⟨(""), 0, true, some ("空输入")⟩] := by
  simp [analyzeJson, h]

/-- analyze_json on non-blank oversized input, for an arbitrary parser
bundle (the size guard returns before any stage runs). -/
lemma analyzeJson_oversize (P : Parsers) (cfg : JsonAnalyzerConfig) (text : String)
    (hb : pyStrip text ≠ ("")) (hl : text.length > 10 * 1024 * 1024) :
    analyzeJson P cfg text = .lines [⟨(""), 0, true, some ("输入数据过大")⟩] := by
  simp [analyzeJson, hb, hl]

/-! ## C8: blank-input guard -/

/-- C8: for empty or whitespace-only input, analyze_json returns exactly
one line, with has_error = true, level 0, and the empty-input message
(空输入), independently of the parser libraries and the configuration —
so no parsing stage is attempted. -/
theorem c8_blank_input_single_error_line (P : Parsers) (cfg : JsonAnalyzerConfig)
    (text : String) (h : pyStrip text = ("")) :
    analyzeJson P cfg text = .lines [⟨(""), 0, true, some ("空输入")⟩] :=
  analyzeJson_blank P cfg text h

/-- Witness for C8 at the concrete input of two spaces, with the
all-failing parser bundle. -/
theorem c8_blank_input_single_error_line_witness :
    pyStrip ("  ") = ("") ∧
      analyzeJson stubParsers defaultConfig ("  ") =
        .lines [⟨(""), 0, true, some ("空输入")⟩] :=
  ⟨by decide, c8_blank_input_single_error_line stubParsers defaultConfig ("  ") (by decide)⟩

/-! ## C9: size guard -/

/-- C9 counterexample: an input of 10 MiB + 1 whitespace characters
exceeds the 10 MiB size guard, yet analyze_json reports the empty-input
message (空输入), not the oversized-input message (输入数据过大), because
the blank-input guard fires first.  This holds for every parser bundle;
it is stated for the stub bundle. -/
theorem c9_oversize_counterexample :
    (String.mk (List.replicate 10485761 (' '))).length > 10 * 1024 * 1024 ∧
      analyzeJson stubParsers defaultConfig (String.mk (List.replicate 10485761 (' '))) =
        .lines [⟨(""), 0, true, some ("空输入")⟩] ∧
      (("空输入") : String) ≠ ("输入数据过大") := by
  refine ⟨?_, ?_, by decide⟩
  · rw [length_mk_replicate]
    decide
  · exact analyzeJson_blank stubParsers defaultConfig _
      (pyStrip_replicate 10485761 (' ') (by decide))

/-- C9 amended: every input that is not empty/whitespace-only and exceeds
the 10 MiB size guard yields exactly one line with has_error = true and
the oversized-input message (输入数据过大), independently of the parser
libraries — so no parsing stage is attempted. -/
theorem c9_oversize_guard_amended (P : Parsers) (cfg : JsonAnalyzerConfig)
    (text : String) (hb : pyStrip text ≠ ("")) (hl : text.length > 10 * 1024 * 1024) :
    analyzeJson P cfg text = .lines [⟨(""), 0, true, some ("输入数据过大")⟩] :=
  analyzeJson_oversize P cfg text hb hl

/-- Witness for the amended C9 at a concrete 10 MiB + 1 character
non-blank input. -/
theorem c9_oversize_guard_amended_witness :
    pyStrip (String.mk (List.replicate 10485761 ('a'))) ≠ ("") ∧
      (String.mk (List.replicate 10485761 ('a'))).length > 10 * 1024 * 1024 ∧
      analyzeJson stubParsers defaultConfig (String.mk (List.replicate 10485761 ('a'))) =
        .lines [⟨(""), 0, true, some ("输入数据过大")⟩] := by
  have hlen : (String.mk (List.replicate 10485761 ('a'))).length = 10485761 :=
    length_mk_replicate 10485761 ('a')
  have hb : pyStrip (String.mk (List.replicate 10485761 ('a'))) ≠ ("") := by
    rw [pyStrip_replicate_nonspace 10485761 ('a') (by decide)]
    intro h
    rw [h] at hlen
    exact absurd hlen (by decide)
  have hl : (String.mk (List.replicate 10485761 ('a'))).length > 10 * 1024 * 1024 := by
    rw [hlen]
    decide
  exact ⟨hb, hl, c9_oversize_guard_amended stubParsers defaultConfig _ hb hl⟩

/-! ## C4: _handle_error layout -/

/-- The last line of _handle_error output is always the error-context
line. -/
lemma handleError_getLast (P : Parsers) (cfg : JsonAnalyzerConfig) (text : String)
    (e : JsonError) :
    (handleError P cfg text e).getLast? = some (errorContextLine cfg text e) := by
  simp [handleError]

/-- C4: for every parser behaviour, configuration, input and located
error, _handle_error produces a non-empty sequence ending in an error
line whose text is the raw slice [offset, offset + max_error_context) of
the input and whose message embeds the offset and the original error
text; and whenever the recovery chain succeeds (a truthy repaired prefix
that strict-parses and formats), its formatted lines are appended before
that final error line, never replacing it. -/
theorem c4_handle_error_layout (P : Parsers) (cfg : JsonAnalyzerConfig)
    (text : String) (e : JsonError) :
    handleError P cfg text e ≠ [] ∧
    (handleError P cfg text e).getLast? =
      some ⟨pySlice text e.pos cfg.max_error_context, 0, true,
        some (("解析错误 (位置 ") ++ toString e.pos ++ ("): ") ++ e.msg)⟩ ∧
    (∃ l ∈ handleError P cfg text e, l.has_error = true) ∧
    (∀ vj parsed ls,
      findValidJsonBeforePosition P.repair (pyTake text e.pos) = some vj →
      vj ≠ ("") →
      P.strict vj = .ok parsed →
      createSuccessLines (pyDumps (dumpArgsNoSep cfg) parsed) = .ok ls →
      handleError P cfg text e =
        ls ++ [⟨pySlice text e.pos cfg.max_error_context, 0, true,
          some (("解析错误 (位置 ") ++ toString e.pos ++ ("): ") ++ e.msg)⟩]) := by
  refine ⟨by simp [handleError], handleError_getLast P cfg text e, ?_, ?_⟩
  · exact ⟨errorContextLine cfg text e, by simp [handleError], rfl⟩
  · intro vj parsed ls h1 h2 h3 h4
    simp [handleError, recoveredLines, errorContextLine, h1, h2, h3, h4]

/-- Witness for C4: a concrete run of _handle_error with the concrete
parser bundle, on the input "[1],oops" with an error at offset 3: the
prefix "[1]" is recovered, formatted to three lines, and the error line
follows them. -/
theorem c4_handle_error_layout_witness :
    findValidJsonBeforePosition modelParsers.repair (pyTake ("[1],oops") 3) =
        some ("[1]") ∧
      (("[1]") : String) ≠ ("") ∧
      modelParsers.strict ("[1]") = .ok (.arr [.int 1]) ∧
      createSuccessLines (pyDumps (dumpArgsNoSep defaultConfig) (.arr [.int 1])) =
        .ok [⟨("["), 0, false, none⟩, ⟨("  1"), 1, false, none⟩, ⟨("]"), 0, false, none⟩] ∧
      handleError modelParsers defaultConfig ("[1],oops") ⟨3, ("Expecting value")⟩ =
        [⟨("["), 0, false, none⟩, ⟨("  1"), 1, false, none⟩, ⟨("]"), 0, false, none⟩,
         ⟨(",oops"), 0, true, some ("解析错误 (位置 3): Expecting value")⟩] := by
  have h4 : createSuccessLines (pyDumps (dumpArgsNoSep defaultConfig) (.arr [.int 1])) =
      .ok [⟨("["), 0, false, none⟩, ⟨("  1"), 1, false, none⟩, ⟨("]"), 0, false, none⟩] := by
    rfl
  refine ⟨rfl, by decide, rfl, h4, ?_⟩
  exact (c4_handle_error_layout modelParsers defaultConfig ("[1],oops")
      ⟨3, ("Expecting value")⟩).2.2.2 ("[1]") (.arr [.int 1])
      [⟨("["), 0, false, none⟩, ⟨("  1"), 1, false, none⟩, ⟨("]"), 0, false, none⟩]
      rfl (by decide) rfl h4

/-! ## C6: the strict parser's error is authoritative -/

/-- The repair stage reaches the stage-four error handling exactly when
json_repair raises, or the repaired string is truthy but fails to parse,
or it parses but its re-serialization breaks the formatter.  (A falsy
repaired string instead makes analyze_json fall off the end.) -/
def repairStageAborts (P : Parsers) (cfg : JsonAnalyzerConfig) (text : String) : Bool :=
  match P.repair text with
  | none => true
  | some r =>
    if r = ("") then false
    else
      match P.strict r with
      | .error _ => true
      | .ok parsed =>
        match createSuccessLines (pyDumps (dumpArgsOf cfg) parsed) with
        | .error _ => true
        | .ok _ => false

/-- C6: when the shape pre-check passed, the strict parse failed with
error e, the lenient parse also failed (with an arbitrary error le), and
the repair stage aborted, the analysis output is exactly _handle_error's
output for e: its final error line embeds e's offset and message.  The
conclusion does not mention le — the lenient stage's own error is
discarded and can never appear in the result. -/
theorem c6_strict_error_authoritative (P : Parsers) (cfg : JsonAnalyzerConfig)
    (text : String) (e : JsonError) (le : String)
    (hb : pyStrip text ≠ ("")) (hl : text.length ≤ 10 * 1024 * 1024)
    (hp : isPotentialJson text = true)
    (hs : P.strict text = .error e)
    (hle : P.lenient text = .error le)
    (hr : repairStageAborts P cfg text = true) :
    analyzeJson P cfg text = .lines (handleError P cfg text e) ∧
      (handleError P cfg text e).getLast? =
        some ⟨pySlice text e.pos cfg.max_error_context, 0, true,
          some (("解析错误 (位置 ") ++ toString e.pos ++ ("): ") ++ e.msg)⟩ := by
  have hl2 : ¬ text.length > 10 * 1024 * 1024 := by omega
  refine ⟨?_, handleError_getLast P cfg text e⟩
  simp only [analyzeJson, hb, hl2, hp, hs]
  simp only [lenientStages, hle]
  rcases hrep : P.repair text with _ | r
  · simp [hrep]
  · simp only [repairStageAborts, hrep] at hr
    simp only [hrep]
    by_cases hre : r = ("")
    · rw [if_pos hre] at hr
      exact absurd hr (by simp)
    · rw [if_neg hre] at hr
      rw [if_neg hre]
      rcases hsr : P.strict r with e2 | parsed
      · simp [hsr]
      · simp only [hsr] at hr
        simp only [hsr]
        rcases hcs : createSuccessLines (pyDumps (dumpArgsOf cfg) parsed) with u | ls
        · simp
        · simp [hcs] at hr

/-- Witness for C6: a concrete run in which every stage fails on the
input, with the strict error at offset 0. -/
theorem c6_strict_error_authoritative_witness :
    pyStrip ("\x7bx\x7d") ≠ ("") ∧
      ("\x7bx\x7d").length ≤ 10 * 1024 * 1024 ∧
      isPotentialJson ("\x7bx\x7d") = true ∧
      stubParsers.strict ("\x7bx\x7d") = .error ⟨0, ("stub")⟩ ∧
      stubParsers.lenient ("\x7bx\x7d") = .error ("stub") ∧
      repairStageAborts stubParsers defaultConfig ("\x7bx\x7d") = true ∧
      analyzeJson stubParsers defaultConfig ("\x7bx\x7d") =
        .lines (handleError stubParsers defaultConfig ("\x7bx\x7d") ⟨0, ("stub")⟩) :=
  ⟨by decide, by decide, by decide, rfl, rfl, by decide,
    (c6_strict_error_authoritative stubParsers defaultConfig ("\x7bx\x7d")
      ⟨0, ("stub")⟩ ("stub") (by decide) (by decide) (by decide) rfl rfl (by decide)).1⟩

/-! ## C5: the prefix search returns the longest repairable comma
candidate -/

/-- A comma-split candidate succeeds when the text up to that comma is
not blank (blank candidates are skipped) and json_repair returns a truthy
(non-empty) string for it without raising. -/
def candRepairSucceeds (repair : String → Option String) (text : String) (pos : Nat) :
    Bool :=
  (pyStrip (pyTake text pos) ≠ ("")) && (((repair (pyTake text pos)).getD ("")) ≠ (""))

lemma findLoop_none_iff (repair : String → Option String) (text : String)
    (l : List Nat) :
    findLoop repair text l = none ↔
      ∀ pos ∈ l, candRepairSucceeds repair text pos = false := by
  induction l with
  | nil => simp [findLoop]
  | cons a rest ih =>
    by_cases hblank : pyStrip (pyTake text a) = ("")
    · simp [findLoop, hblank, ih, candRepairSucceeds]
    · rcases hrep : repair (pyTake text a) with _ | r
      · simp [findLoop, hblank, hrep, ih, candRepairSucceeds]
      · by_cases hre : r = ("")
        · simp [findLoop, hblank, hrep, hre, ih, candRepairSucceeds]
        · simp [findLoop, hblank, hrep, hre, ih, candRepairSucceeds]

lemma findLoop_first (repair : String → Option String) (text : String) :
    ∀ (l : List Nat), l.Pairwise (· > ·) →
      ∀ pos, pos ∈ l → candRepairSucceeds repair text pos = true →
      (∀ q ∈ l, pos < q → candRepairSucceeds repair text q = false) →
      findLoop repair text l = repair (pyTake text pos) := by
  intro l
  induction l with
  | nil => intro _ pos hm; exact absurd hm (List.not_mem_nil pos)
  | cons a rest ih =>
    intro hpw pos hm hc hmax
    rcases List.mem_cons.mp hm with heq | hmem
    · subst heq
      rw [candRepairSucceeds] at hc
      simp only [Bool.and_eq_true, decide_eq_true_eq] at hc
      obtain ⟨hb', ht⟩ := hc
      rcases hrep : repair (pyTake text pos) with _ | r
      · rw [hrep] at ht
        simp at ht
      · rw [hrep] at ht
        simp only [Option.getD_some] at ht
        simp [findLoop, hb', hrep, ht]
    · have hgt : a > pos := (List.pairwise_cons.mp hpw).1 pos hmem
      have hfa : candRepairSucceeds repair text a = false :=
        hmax a (List.mem_cons_self a rest) hgt
      have hrec : findLoop repair text rest = repair (pyTake text pos) := by
        refine ih (List.pairwise_cons.mp hpw).2 pos hmem hc ?_
        intro q hq hlt
        exact hmax q (List.mem_cons_of_mem a hq) hlt
      by_cases hblank : pyStrip (pyTake text a) = ("")
      · simp [findLoop, hblank, hrec]
      · rcases hrep : repair (pyTake text a) with _ | r
        · simp [findLoop, hblank, hrep, hrec]
        · have hre : r = ("") := by
            by_contra hne
            rw [candRepairSucceeds, hrep] at hfa
            simp [hblank, hne] at hfa
          simp [findLoop, hblank, hrep, hre, hrec]

lemma commaPositions_sorted (s : String) : (commaPositions s).Pairwise (· < ·) :=
  List.Pairwise.filter _ (List.pairwise_lt_range s.data.length)

/-- C5: for non-blank text containing at least one comma, the prefix
search _find_valid_json_before_position returns None exactly when no
comma candidate succeeds, and otherwise returns the repaired text of the
successful candidate with the largest comma position — the longest valid
prefix under the comma-split heuristic (the walk runs from the last comma
backward). -/
theorem c5_longest_valid_comma_candidate (repair : String → Option String)
    (text : String) (hb : pyStrip text ≠ ("")) (hc : commaPositions text ≠ []) :
    (findValidJsonBeforePosition repair text = none ↔
      ∀ pos ∈ commaPositions text, candRepairSucceeds repair text pos = false) ∧
    (∀ pos ∈ commaPositions text, candRepairSucceeds repair text pos = true →
      (∀ q ∈ commaPositions text, pos < q → candRepairSucceeds repair text q = false) →
      findValidJsonBeforePosition repair text = repair (pyTake text pos)) := by
  have hne : (commaPositions text).isEmpty = false := by
    simpa [List.isEmpty_iff] using hc
  constructor
  · simp only [findValidJsonBeforePosition, if_neg hb, hne, Bool.false_eq_true, if_false]
    rw [findLoop_none_iff]
    constructor
    · intro h pos hm
      exact h pos (List.mem_reverse.mpr hm)
    · intro h pos hm
      exact h pos (List.mem_reverse.mp hm)
  · intro pos hm hcand hmax
    simp only [findValidJsonBeforePosition, if_neg hb, hne, Bool.false_eq_true, if_false]
    have hpw : (commaPositions text).reverse.Pairwise (· > ·) := by
      rw [List.pairwise_reverse]
      exact commaPositions_sorted text
    refine findLoop_first repair text _ hpw pos (List.mem_reverse.mpr hm) hcand ?_
    intro q hq hlt
    exact hmax q (List.mem_reverse.mp hq) hlt

/-- The concrete repair function of the C5 witness: succeeds exactly on
the candidate text up to the second comma. -/
def c5WitnessRepair : String → Option String :=
  fun s => if s = ("a,b") then some ("RE") else none

/-- Witness for C5: on "a,b,c" (commas at 1 and 3) with a repair function
succeeding only on "a,b", the search returns that repaired candidate. -/
theorem c5_longest_valid_comma_candidate_witness :
    pyStrip ("a,b,c") ≠ ("") ∧
      commaPositions ("a,b,c") ≠ [] ∧
      (3 : Nat) ∈ commaPositions ("a,b,c") ∧
      candRepairSucceeds c5WitnessRepair ("a,b,c") 3 = true ∧
      (∀ q ∈ commaPositions ("a,b,c"), 3 < q →
        candRepairSucceeds c5WitnessRepair ("a,b,c") q = false) ∧
      findValidJsonBeforePosition c5WitnessRepair ("a,b,c") =
        c5WitnessRepair (pyTake ("a,b,c") 3) ∧
      c5WitnessRepair (pyTake ("a,b,c") 3) = some ("RE") :=
  ⟨by decide, by decide, by decide, by decide, by decide,
    (c5_longest_valid_comma_candidate c5WitnessRepair ("a,b,c") (by decide)
      (by decide)).2 3 (by decide) (by decide) (by decide), by decide⟩

/-! ## C3 and C7: the formatter walk -/

lemma walkNext_eq (line : String) (lvl : Int) :
    walkNext line lvl = lvl + lineDelta line := by
  simp only [walkNext, walkRec, lineDelta]
  split <;> split <;> omega

lemma successWalk_texts (ls : List String) (lvl : Int) :
    (successWalk ls lvl).map (fun l => l.text) = ls := by
  induction ls generalizing lvl with
  | nil => rfl
  | cons line rest ih => simp [successWalk, ih]

lemma successWalk_level (ls : List String) :
    ∀ (lvl : Int) (i : Nat) (line : JsonLine),
      (successWalk ls lvl).get? i = some line →
      line.level = lvl + ((ls.take i).map lineDelta).sum -
        (if closerTest (ls.getD i ("")) then 1 else 0) := by
  induction ls with
  | nil => intro lvl i line h; simp [successWalk] at h
  | cons l rest ih =>
    intro lvl i line h
    match i with
    | 0 =>
      simp only [successWalk, List.get?_cons_zero, Option.some.injEq] at h
      subst h
      show walkRec l lvl = lvl + ((List.take 0 (l :: rest)).map lineDelta).sum -
        (if closerTest ((l :: rest).getD 0 ("")) then 1 else 0)
      simp only [List.take_zero, List.map_nil, List.sum_nil, List.getD_cons_zero, walkRec]
      split <;> omega
    | i + 1 =>
      simp only [successWalk, List.get?_cons_succ] at h
      have hrec := ih (walkNext l lvl) i line h
      rw [hrec, walkNext_eq]
      simp only [List.take_succ_cons, List.map_cons, List.sum_cons, List.getD_cons_succ]
      omega

/-- Extracting the walk from a successful _create_success_lines run. -/
lemma createSuccessLines_ok (s : String) (out : List JsonLine)
    (h : createSuccessLines s = .ok out) :
    out = successWalk (pySplitlines s) 0 := by
  unfold createSuccessLines at h
  split at h
  · cases h
  · cases h
    rfl

/-- C3 counterexample: the first line of the input "\x7b \nx" has trimmed
content "\x7b", which ends with an opening brace, so the claim (tie-break
tests on the trimmed content) requires the counter to be incremented
after that line, giving the second line level 1.  The code left-strips
only, sees the trailing space, does not increment, and records level 0
for the second line. -/
theorem c3_trimmed_tiebreak_counterexample :
    (pyStrip ("\x7b ")).data.getLast? = some ('\x7b') ∧
      createSuccessLines ("\x7b \nx") =
        .ok [⟨("\x7b "), 0, false, none⟩, ⟨("x"), 0, false, none⟩] :=
  ⟨by decide, by rfl⟩

/-- C3 amended: the walk keeps a counter initialised to 0; a line whose
LEFT-trimmed content starts with a closing bracket has the counter
decremented before its level is recorded (the subtracted closer term for
line i itself), and a line whose LEFT-trimmed content ends with an
opening bracket has the counter incremented after its level is recorded
(the opener contribution of lineDelta, visible only to later lines). -/
theorem c3_level_walk_amended (s : String) (out : List JsonLine)
    (h : createSuccessLines s = .ok out) :
    ∀ (i : Nat) (line : JsonLine), out.get? i = some line →
      line.level = (((pySplitlines s).take i).map lineDelta).sum -
        (if closerTest ((pySplitlines s).getD i ("")) then 1 else 0) := by
  intro i line hl
  rw [createSuccessLines_ok s out h] at hl
  have := successWalk_level (pySplitlines s) 0 i line hl
  omega

/-- Witness for the amended C3 on a concrete three-line formatted
document, checked at its middle line. -/
theorem c3_level_walk_amended_witness :
    createSuccessLines ("[\n  1\n]") =
        .ok [⟨("["), 0, false, none⟩, ⟨("  1"), 1, false, none⟩, ⟨("]"), 0, false, none⟩] ∧
      ([⟨("["), 0, false, none⟩, ⟨("  1"), 1, false, none⟩,
          ⟨("]"), 0, false, none⟩] : List JsonLine).get? 1 =
        some ⟨("  1"), 1, false, none⟩ ∧
      (JsonLine.mk ("  1") 1 false none).level =
        (((pySplitlines ("[\n  1\n]")).take 1).map lineDelta).sum -
          (if closerTest ((pySplitlines ("[\n  1\n]")).getD 1 ("")) then 1 else 0) :=
  ⟨by rfl, by rfl,
    c3_level_walk_amended ("[\n  1\n]") _ (by rfl) 1 (JsonLine.mk ("  1") 1 false none)
      (by rfl)⟩

/-- C7 counterexample: the successful analysis of a one-member object
with the default two-space indent produces a middle line whose text field
contains the serializer\x27s two leading indentation spaces, so the text is
not free of leading indentation. -/
theorem c7_text_indent_counterexample :
    analyzeJson modelParsers defaultConfig ("\x7b\"a\": 1\x7d") =
      .lines [⟨("\x7b"), 0, false, none⟩, ⟨("  \"a\": 1"), 1, false, none⟩,
        ⟨("\x7d"), 0, false, none⟩] ∧
      pyLStrip ("  \"a\": 1") ≠ ("  \"a\": 1") :=
  ⟨by rfl, by decide⟩

/-- C7 amended: every JsonLine produced by the formatter path carries as
its text the raw corresponding line of the serialized text, including any
leading indentation the serializer put there; the level field records the
nesting depth in addition to (not instead of) that embedded
indentation. -/
theorem c7_text_is_raw_line_amended (s : String) (out : List JsonLine)
    (h : createSuccessLines s = .ok out) :
    out.map (fun l => l.text) = pySplitlines s := by
  rw [createSuccessLines_ok s out h]
  exact successWalk_texts (pySplitlines s) 0

/-- Witness for the amended C7 on a concrete single-line document. -/
theorem c7_text_is_raw_line_amended_witness :
    createSuccessLines ("0") = .ok [⟨("0"), 0, false, none⟩] ∧
      ([⟨("0"), 0, false, none⟩] : List JsonLine).map (fun l => l.text) =
        pySplitlines ("0") :=
  ⟨by rfl, c7_text_is_raw_line_amended ("0") _ (by rfl)⟩

/-! ## C10: leading-minus numbers fail the shape pre-check but succeed
through the lenient stage -/

/-- json.dumps of an integer scalar is its decimal rendering, for any
dump arguments. -/
lemma pyDumps_int (args : DumpArgs) (m : Int) : pyDumps args (.int m) = toString m :=
  rfl

/-- _create_success_lines on a single-line scalar document that does not
start with a closing bracket: one line at level 0. -/
lemma createSuccessLines_single (t : String) (h7 : pySplitlines t = [t])
    (h8 : countNewlines t = 0) (h9 : closerTest t = false) :
    createSuccessLines t = .ok [⟨t, 0, false, none⟩] := by
  unfold createSuccessLines
  rw [h7, h8]
  simp [successWalk, walkRec, h9]

/-- C10: for input whose stripped text starts with a minus sign (for
example "-5", a valid JSON number), the shape pre-check is false — its
digit test strips only one dot and rejects the minus sign, and a minus
sign matches neither the bracket, quote nor literal patterns — so the
strict-parse stage is skipped and no original error is recorded; when
the lenient stage parses the input to an integer m, the analysis
nevertheless returns the single success line carrying m's decimal
rendering, for ANY behaviour of the strict parser (it is never
consulted). -/
theorem c10_minus_number_shape_check (P : Parsers) (cfg : JsonAnalyzerConfig)
    (text : String) (m : Int)
    (h1 : (pyLStrip text).data.headD (' ') = ('-'))
    (h3 : (pyStrip text).data.headD (' ') = ('-'))
    (h5 : text.length ≤ 10 * 1024 * 1024)
    (h7 : pySplitlines (toString m) = [toString m])
    (h8 : countNewlines (toString m) = 0)
    (h9 : closerTest (toString m) = false)
    (hlen : P.lenient text = .ok (.int m)) :
    isPotentialJson text = false ∧
      ∀ strict', analyzeJson { P with strict := strict' } cfg text =
        .lines [⟨toString m, 0, false, none⟩] := by
  obtain ⟨tl, htl⟩ : ∃ tl, (pyStrip text).data = ('-') :: tl := by
    rcases hdt : (pyStrip text).data with _ | ⟨c, tl⟩
    · rw [hdt] at h3
      exact absurd h3 (by decide)
    · rw [hdt] at h3
      simp only [List.headD_cons] at h3
      subst h3
      exact ⟨tl, rfl⟩
  have hne : pyStrip text ≠ ("") := by
    intro h0
    rw [h0] at htl
    simp at htl
  have hlitNe : ∀ (w : String), ¬ (some (asciiLower ('-')) = w.data.head?) →
      pyLower (pyStrip text) ≠ w := by
    intro w hw heq
    have hd : List.map asciiLower (('-') :: tl) = w.data := by
      rw [← htl]
      exact congrArg String.data heq
    have hh := congrArg List.head? hd
    simp only [List.map_cons, List.head?_cons] at hh
    exact hw hh
  have hdig : pyIsDigitStr (removeFirstDot (pyStrip text).data) = false := by
    rw [htl]
    have hstep : removeFirstDot (('-') :: tl) = ('-') :: removeFirstDot tl := by
      simp [removeFirstDot, (show ('-') ≠ ('.') by decide)]
    rw [hstep]
    have hp : (decide (('0') ≤ ('-') ∧ ('-') ≤ ('9'))) = false := by decide
    simp [pyIsDigitStr, List.all_cons, hp]
  have hpot : isPotentialJson text = false := by
    unfold isPotentialJson
    refine decide_eq_false ?_
    intro hor
    rcases hor with ⟨hf, _⟩ | ⟨hf, _⟩ | hlit | hdig2
    · rw [h1] at hf
      rcases hf with hf | hf <;> exact absurd hf (by decide)
    · rw [h1] at hf
      exact absurd hf (by decide)
    · rcases hlit with h | h | h
      · exact hlitNe ("true") (by decide) h
      · exact hlitNe ("false") (by decide) h
      · exact hlitNe ("null") (by decide) h
    · rw [hdig] at hdig2
      exact absurd hdig2 (by simp)
  refine ⟨hpot, ?_⟩
  intro strict'
  have hl2 : ¬ text.length > 10 * 1024 * 1024 := by omega
  have hcs : createSuccessLines (pyDumps (dumpArgsOf cfg) (.int m)) =
      .ok [⟨toString m, 0, false, none⟩] := by
    rw [pyDumps_int]
    exact createSuccessLines_single (toString m) h7 h8 h9
  unfold analyzeJson
  rw [if_neg hne, if_neg hl2]
  simp only [hpot, Bool.false_eq_true, if_false]
  unfold lenientStages
  simp only [hlen, hcs]

/-- The parser bundle of the C10 witness: pyjson5 parses "-5" to the
integer -5; nothing else is consulted. -/
def c10WitnessParsers : Parsers where
  strict := fun _ => .error ⟨0, ("stub")⟩
  lenient := fun s => if s = ("-5") then .ok (.int (-5)) else .error ("stub")
  repair := fun _ => none

/-- Witness for C10 at the concrete input "-5". -/
theorem c10_minus_number_shape_check_witness :
    (pyLStrip ("-5")).data.headD (' ') = ('-') ∧
      (pyStrip ("-5")).data.headD (' ') = ('-') ∧
      ("-5").length ≤ 10 * 1024 * 1024 ∧
      pySplitlines (toString (-5 : Int)) = [toString (-5 : Int)] ∧
      countNewlines (toString (-5 : Int)) = 0 ∧
      closerTest (toString (-5 : Int)) = false ∧
      c10WitnessParsers.lenient ("-5") = .ok (.int (-5)) ∧
      isPotentialJson ("-5") = false ∧
      analyzeJson c10WitnessParsers defaultConfig ("-5") =
        .lines [⟨toString (-5 : Int), 0, false, none⟩] ∧
      toString (-5 : Int) = ("-5") := by
  have happ := c10_minus_number_shape_check c10WitnessParsers defaultConfig ("-5")
    (-5) (by decide) (by decide) (by decide) (by decide) (by decide) (by decide) rfl
  exact ⟨by decide, by decide, by decide, by decide, by decide, by decide, rfl,
    happ.1, happ.2 c10WitnessParsers.strict, by decide⟩

/-! ## C1 and C2: the analyzer is not total -/

/-- C1 (code bug): the input consisting of a quoted LINE SEPARATOR
(U+2028) — three characters, a well-formed JSON string accepted by the
strict parser — makes analyze_json raise instead of returning lines:
json.dumps with the default ensure_ascii=False re-emits U+2028 raw,
str.splitlines splits on it, and the formatter's preallocated buffer of
count("\n") + 1 slots overflows with IndexError, which is not a
json.JSONDecodeError and so escapes (re-raised by the outermost
handler). -/
theorem c1_analyze_raises_on_valid_input :
    jsonLoads ("\"\u2028\"") = .ok (.str ("\u2028")) ∧
      analyzeJson modelParsers defaultConfig ("\"\u2028\"") = .raised :=
  ⟨rfl, by rfl⟩

/-- C2 (code bug): the valid JSON value consisting of the one-character
string PARAGRAPH SEPARATOR (U+2029): analyzing its canonical
serialization under the default configuration raises (same preallocation
overflow as C1) instead of returning an all-success line sequence that
reassembles to the value. -/
theorem c2_roundtrip_raises_on_paragraph_separator :
    pyDumps (dumpArgsOf defaultConfig) (.str ("\u2029")) = ("\"\u2029\"") ∧
      jsonLoads (pyDumps (dumpArgsOf defaultConfig) (.str ("\u2029"))) =
        .ok (.str ("\u2029")) ∧
      analyzeJson modelParsers defaultConfig
        (pyDumps (dumpArgsOf defaultConfig) (.str ("\u2029"))) = .raised :=
  ⟨rfl, rfl, by rfl⟩
